import Mathlib

/-
  Verification of the care-insight inference service (src/app.py).

  The service loads three frozen text vectorizers and a frozen classifier,
  and serves a `/predict` endpoint that reads three string fields from the
  request JSON, vectorizes them, horizontally stacks the three sparse row
  vectors, classifies the stacked vector, and returns the predicted label
  together with a treatment recommendation looked up in a static table.

  The serialized vectorizers and classifier are opaque startup artifacts and
  are not part of the repository source; they are represented abstractly,
  carrying only the contracts the spec states for them (fixed output
  dimensionality for an encoder; a dimension check for the classifier).
  Everything else is translated directly from src/app.py.
-/

set_option autoImplicit false

namespace CareInsight

/-- A request JSON body, as the `/predict` handler consumes it: an object with
string-valued fields.  `request.json.get(k)` is association lookup returning
`none` when the field is absent. -/
abbrev Request := List (String × String)

/-- `request.json.get(key)`: the value of field `key`, or `none` if absent. -/
def jsonGet (req : Request) (key : String) : Option String :=
  (req.find? (fun p => p.1 == key)).map (fun p => p.2)

/-- One value of the `treatment_map` dictionary in src/app.py: a Python dict
with (up to) the two string keys `"text"` and `"url"`.  Both fields are
`Option`-valued because the empty dict `{}` (the lookup default at
src/app.py:104) defines neither key. -/
structure TreatmentInfo where
  text? : Option String
  url? : Option String
deriving DecidableEq

/-- The empty Python dict `{}` used as the default in
`treatment_map.get(prediction, {})` (src/app.py:104). -/
def emptyInfo : TreatmentInfo := { text? := none, url? := none }

/-- The `treatment_map` dictionary of src/app.py lines 15-52: mutation class
label to treatment protocol and link.  `dict.get` on an absent key is `none`. -/
def treatment_map (label : Int) : Option TreatmentInfo :=
  if label = 1 then
    some { text? := some "Standard therapy; consider immunotherapy or PARP inhibitors if BRCA-mutated.",
           url? := some "https://www.ncbi.nlm.nih.gov/pmc/articles/PMC7405942/" }
  else if label = 2 then
    some { text? := some "Targeted therapy (e.g., kinase inhibitors); if unavailable, use conventional therapy.",
           url? := some "https://www.cancer.gov/about-cancer/treatment/types/targeted-therapies" }
  else if label = 3 then
    some { text? := some "Neutral mutation; follow standard treatment protocols.",
           url? := some "https://www.ncbi.nlm.nih.gov/pmc/articles/PMC4640069/" }
  else if label = 4 then
    some { text? := some "Confirmed Loss-of-Function; standard care or synthetic lethality strategies.",
           url? := some "https://www.nature.com/articles/nrc.2016.128" }
  else if label = 5 then
    some { text? := some "Likely neutral; treat based on tumor type and stage.",
           url? := some "https://www.ncbi.nlm.nih.gov/pmc/articles/PMC8806427/" }
  else if label = 6 then
    some { text? := some "Uncertain significance; do not change treatment, monitor patient.",
           url? := some "https://www.ncbi.nlm.nih.gov/pmc/articles/PMC6947910/" }
  else if label = 7 then
    some { text? := some "Confirmed Gain-of-Function; apply targeted inhibitors if available.",
           url? := some "https://www.ncbi.nlm.nih.gov/pmc/articles/PMC6231376/" }
  else if label = 8 then
    some { text? := some "Likely Switch-of-Function; consider experimental or standard therapy.",
           url? := some "https://www.ncbi.nlm.nih.gov/pmc/articles/PMC6950540/" }
  else if label = 9 then
    some { text? := some "Confirmed Switch-of-Function; use available neomorphic-targeted drugs.",
           url? := some "https://www.frontiersin.org/articles/10.3389/fgene.2022.909402/full" }
  else
    none

/-- `treatment_info.get("text", "No recommendation available")` from
src/app.py:105, composed with the `treatment_map.get(prediction, {})` lookup
of src/app.py:104. -/
def treatmentTextOf (label : Int) : String :=
  (((treatment_map label).getD emptyInfo).text?).getD "No recommendation available"

/-- `treatment_info.get("url", "#")` from src/app.py:106, composed with the
`treatment_map.get(prediction, {})` lookup of src/app.py:104. -/
def treatmentUrlOf (label : Int) : String :=
  (((treatment_map label).getD emptyInfo).url?).getD "#"

/-- A numpy integer scalar, as produced by `model.predict(...)[0]`: a boxed
machine integer.  Python `int(x)` extracts the plain integer (`NpInt64.toInt`
below). -/
structure NpInt64 where
  val : Int
deriving DecidableEq

/-- Python `int(x)` applied to a numpy scalar (src/app.py:109). -/
def NpInt64.toInt (x : NpInt64) : Int := x.val

/-- A per-request failure of the inference pipeline, surfaced to the caller
as an aborted request. -/
inductive PipelineError where
  /-- The exception a frozen text vectorizer raises when handed a null
  (absent-field) value instead of a string. -/
  | encodeNone
  /-- The exception the classifier raises when the input width disagrees with
  the width it was fit with (the spec's DimensionMismatchError). -/
  | dimMismatch
  /-- Indexing `[0]` into an empty prediction array. -/
  | indexEmpty
deriving DecidableEq

/-- Modelled from the spec: a FeatureEncoder (one of the three serialized
vectorizers, external startup artifacts absent from src/).  Per §4.1 it is a
pure text-to-vector transform whose output dimensionality `dim` is fixed at
load time and does not vary with input content. -/
structure Encoder where
  dim : Nat
  enc : String → List Rat
  enc_len : ∀ s, (enc s).length = dim

/-- `vectorizer.transform([x])` (src/app.py:95-97): a single-document batch
yields a sparse matrix with exactly one row.  Modelled from the spec: the
encoder contract (§4.1) accepts strings only; handing it the null of an
absent field fails inside the encoder (no validation happens before it). -/
def Encoder.transform (E : Encoder) : Option String → Except PipelineError (List (List Rat))
  | none => .error .encodeNone
  | some s => .ok [E.enc s]

/-- `scipy.sparse.hstack((a, b, c))` (src/app.py:98) on three matrices with
the same row count: rowwise horizontal concatenation, in the given order. -/
def hstack3 (a b c : List (List Rat)) : List (List Rat) :=
  List.zipWith (fun r s => r ++ s) (List.zipWith (fun r s => r ++ s) a b) c

/-- Modelled from the spec: the frozen Classifier (a serialized model,
external startup artifact absent from src/).  Per §4.3 it is a deterministic
function of the feature vector and fails with a dimension-mismatch error when
the input width differs from `expectedDim`, the width it was fit with. -/
structure Classifier where
  expectedDim : Nat
  f : List Rat → NpInt64

/-- `model.predict(m)` (src/app.py:101): checks the matrix width against the
fitted width, then labels each row. -/
def Classifier.predictMat (C : Classifier) (m : List (List Rat)) :
    Except PipelineError (List NpInt64) :=
  if m.all (fun row => row.length == C.expectedDim) then .ok (m.map C.f)
  else .error .dimMismatch

/-- The success response body of the `/predict` handler
(src/app.py:108-112). -/
structure Response where
  prediction : Int
  treatment : String
  url : String
deriving DecidableEq

/-- The `/predict` handler, src/app.py lines 88-112, line by line.  The three
vectorizers and the model are the startup artifacts.  `prediction.toInt`
models both the by-value dictionary lookup `treatment_map.get(prediction, {})`
(numpy integers compare equal to the plain integer keys) and the explicit
`int(prediction)` conversion before serialization. -/
def predict (gene_vectorizer variation_vectorizer text_vectorizer : Encoder)
    (model : Classifier) (req : Request) : Except PipelineError Response := do
  let gene := jsonGet req "gene"
  let variation := jsonGet req "variation"
  let text := jsonGet req "text"
  let gene_vector ← gene_vectorizer.transform gene
  let variation_vector ← variation_vectorizer.transform variation
  let text_vector ← text_vectorizer.transform text
  let input_vector := hstack3 gene_vector variation_vector text_vector
  let predictions ← model.predictMat input_vector
  let prediction ← match predictions.head? with
    | some p => Except.ok p
    | none => Except.error PipelineError.indexEmpty
  let treatment_info := (treatment_map prediction.toInt).getD emptyInfo
  let treatment_text := treatment_info.text?.getD "No recommendation available"
  let treatment_url := treatment_info.url?.getD "#"
  return { prediction := prediction.toInt, treatment := treatment_text, url := treatment_url }

/-- A concrete one-dimensional encoder instantiating the abstract encoder
contract in concrete evaluations. -/
def encX : Encoder :=
  { dim := 1, enc := fun _ => [0], enc_len := fun _ => rfl }

/-- A concrete classifier fit to width 3 (the assembled width of three `encX`
fragments) that always answers label 1. -/
def clfX : Classifier := { expectedDim := 3, f := fun _ => { val := 1 } }

/-- A concrete classifier whose fitted width disagrees with the assembled
vector width, triggering the dimension-mismatch failure. -/
def clfBad : Classifier := { expectedDim := 99, f := fun _ => { val := 1 } }

/-- A request carrying all three fields the `/predict` handler reads. -/
def reqFull : Request :=
  [("gene", "BRCA1"), ("variation", "V600E"),
   ("text", "Patient has family history of breast cancer")]

/-- `reqFull` with an additional unrelated field. -/
def reqExtra : Request := ("units", "1") :: reqFull

/-- A request with only two of the three fields: the `text` field is absent. -/
def reqMissing : Request := [("gene", "BRCA1"), ("variation", "V600E")]

/-- The example request documented by the service's own home endpoint
(src/app.py:75-79): fields named `input1`, `input2`, `input3`. -/
def reqDocumented : Request :=
  [("input1", "BRCA1"), ("input2", "V600E"),
   ("input3", "Patient has family history of breast cancer")]

/-- Reduction of monadic bind on a successful `Except` value. -/
@[simp] theorem except_bind_ok {ε α β : Type} (a : α) (f : α → Except ε β) :
    (Except.ok a >>= f) = f a := rfl

/-- Reduction of monadic bind on a failed `Except` value: the failure
short-circuits the rest of the computation. -/
@[simp] theorem except_bind_error {ε α β : Type} (e : ε) (f : α → Except ε β) :
    ((Except.error e : Except ε α) >>= f) = Except.error e := rfl

/-- C1: for every integer label outside the set {1,...,9}, the recommendation
lookup performed by the predict operation does not fail and returns exactly
the fallback record with advisory text "No recommendation available" and
reference URL "#". -/
theorem lookup_unknown_is_fallback (n : Int) (h : ¬ (1 ≤ n ∧ n ≤ 9)) :
    treatmentTextOf n = "No recommendation available" ∧ treatmentUrlOf n = "#" := by
  have h1 : ¬ n = 1 := by omega
  have h2 : ¬ n = 2 := by omega
  have h3 : ¬ n = 3 := by omega
  have h4 : ¬ n = 4 := by omega
  have h5 : ¬ n = 5 := by omega
  have h6 : ¬ n = 6 := by omega
  have h7 : ¬ n = 7 := by omega
  have h8 : ¬ n = 8 := by omega
  have h9 : ¬ n = 9 := by omega
  simp [treatmentTextOf, treatmentUrlOf, treatment_map, emptyInfo,
    h1, h2, h3, h4, h5, h6, h7, h8, h9]

/-- Witness for C1 at the concrete unknown label 10. -/
theorem lookup_unknown_is_fallback_witness :
    ¬ ((1 : Int) ≤ 10 ∧ (10 : Int) ≤ 9) ∧
      (treatmentTextOf 10 = "No recommendation available" ∧ treatmentUrlOf 10 = "#") :=
  ⟨by decide, lookup_unknown_is_fallback 10 (by decide)⟩

/-- C2: for every label value in 1 through 9, the recommendation lookup
returns exactly the literal advisory text and reference URL of the static
`treatment_map` table. -/
theorem lookup_known_is_literal :
    treatmentTextOf 1 = "Standard therapy; consider immunotherapy or PARP inhibitors if BRCA-mutated." ∧
    treatmentUrlOf 1 = "https://www.ncbi.nlm.nih.gov/pmc/articles/PMC7405942/" ∧
    treatmentTextOf 2 = "Targeted therapy (e.g., kinase inhibitors); if unavailable, use conventional therapy." ∧
    treatmentUrlOf 2 = "https://www.cancer.gov/about-cancer/treatment/types/targeted-therapies" ∧
    treatmentTextOf 3 = "Neutral mutation; follow standard treatment protocols." ∧
    treatmentUrlOf 3 = "https://www.ncbi.nlm.nih.gov/pmc/articles/PMC4640069/" ∧
    treatmentTextOf 4 = "Confirmed Loss-of-Function; standard care or synthetic lethality strategies." ∧
    treatmentUrlOf 4 = "https://www.nature.com/articles/nrc.2016.128" ∧
    treatmentTextOf 5 = "Likely neutral; treat based on tumor type and stage." ∧
    treatmentUrlOf 5 = "https://www.ncbi.nlm.nih.gov/pmc/articles/PMC8806427/" ∧
    treatmentTextOf 6 = "Uncertain significance; do not change treatment, monitor patient." ∧
    treatmentUrlOf 6 = "https://www.ncbi.nlm.nih.gov/pmc/articles/PMC6947910/" ∧
    treatmentTextOf 7 = "Confirmed Gain-of-Function; apply targeted inhibitors if available." ∧
    treatmentUrlOf 7 = "https://www.ncbi.nlm.nih.gov/pmc/articles/PMC6231376/" ∧
    treatmentTextOf 8 = "Likely Switch-of-Function; consider experimental or standard therapy." ∧
    treatmentUrlOf 8 = "https://www.ncbi.nlm.nih.gov/pmc/articles/PMC6950540/" ∧
    treatmentTextOf 9 = "Confirmed Switch-of-Function; use available neomorphic-targeted drugs." ∧
    treatmentUrlOf 9 = "https://www.frontiersin.org/articles/10.3389/fgene.2022.909402/full" :=
  ⟨rfl, rfl, rfl, rfl, rfl, rfl, rfl, rfl, rfl, rfl, rfl, rfl, rfl, rfl, rfl, rfl, rfl, rfl⟩

/-- C10: for every label, the returned recommendation record is never a mix
of stored and fallback parts: either both the advisory text and the URL come
from the same stored `treatment_map` entry, or both are the fallback values
"No recommendation available" and "#". -/
theorem lookup_never_mixes_parts (n : Int) :
    (∃ r, treatment_map n = some r ∧ r.text? = some (treatmentTextOf n) ∧
        r.url? = some (treatmentUrlOf n)) ∨
      (treatmentTextOf n = "No recommendation available" ∧ treatmentUrlOf n = "#") := by
  by_cases h1 : n = 1
  · subst h1; exact Or.inl ⟨_, rfl, rfl, rfl⟩
  by_cases h2 : n = 2
  · subst h2; exact Or.inl ⟨_, rfl, rfl, rfl⟩
  by_cases h3 : n = 3
  · subst h3; exact Or.inl ⟨_, rfl, rfl, rfl⟩
  by_cases h4 : n = 4
  · subst h4; exact Or.inl ⟨_, rfl, rfl, rfl⟩
  by_cases h5 : n = 5
  · subst h5; exact Or.inl ⟨_, rfl, rfl, rfl⟩
  by_cases h6 : n = 6
  · subst h6; exact Or.inl ⟨_, rfl, rfl, rfl⟩
  by_cases h7 : n = 7
  · subst h7; exact Or.inl ⟨_, rfl, rfl, rfl⟩
  by_cases h8 : n = 8
  · subst h8; exact Or.inl ⟨_, rfl, rfl, rfl⟩
  by_cases h9 : n = 9
  · subst h9; exact Or.inl ⟨_, rfl, rfl, rfl⟩
  right
  simp [treatmentTextOf, treatmentUrlOf, treatment_map, emptyInfo,
    h1, h2, h3, h4, h5, h6, h7, h8, h9]

/-- C3: the claim says the predict operation reads the gene from JSON field
`input1`, the variation from `input2` and the clinical text from `input3`.
The handler in fact reads fields `gene`, `variation` and `text`: on the
example request documented by the service's own home endpoint (fields
`input1`/`input2`/`input3`), every field the handler reads is absent, so the
null values flow into encoding and the request fails. -/
theorem predict_ignores_documented_field_names :
    jsonGet reqDocumented "input1" = some "BRCA1" ∧
    jsonGet reqDocumented "gene" = none ∧
    predict encX encX encX clfX reqDocumented = .error .encodeNone :=
  ⟨rfl, rfl, rfl⟩

/-- C4 counterexample: on a request carrying only two of the three fields
(no `text` field), the handler raises no missing-field error before encoding:
the absent field's null value is handed directly to the text encoder's
transform, which is where the failure happens. -/
theorem predict_missing_field_counterexample :
    jsonGet reqMissing "text" = none ∧
    Encoder.transform encX (jsonGet reqMissing "text") = .error .encodeNone ∧
    predict encX encX encX clfX reqMissing = .error .encodeNone :=
  ⟨rfl, rfl, rfl⟩

/-- C4 (amended): for every request in which at least one of the three raw
input fields is absent, the handler passes the null value straight into the
corresponding encoder; encoding fails there, so the request aborts with an
encoding error and no label is ever produced. -/
theorem predict_missing_field_aborts (gv vv tv : Encoder) (M : Classifier)
    (req : Request)
    (h : jsonGet req "gene" = none ∨ jsonGet req "variation" = none ∨
      jsonGet req "text" = none) :
    predict gv vv tv M req = .error .encodeNone := by
  rcases hG : jsonGet req "gene" with _ | g
  · simp [predict, hG, Encoder.transform]
  · rcases hV : jsonGet req "variation" with _ | v
    · simp [predict, hG, hV, Encoder.transform]
    · rcases hT : jsonGet req "text" with _ | t
      · simp [predict, hG, hV, hT, Encoder.transform]
      · exfalso
        rcases h with h | h | h <;> simp_all

/-- Witness for C4 (amended) on the concrete request missing its text
field. -/
theorem predict_missing_field_aborts_witness :
    predict encX encX encX clfX reqMissing = .error .encodeNone :=
  predict_missing_field_aborts encX encX encX clfX reqMissing
    (Or.inr (Or.inr rfl))

/-- C5: the assembled feature vector is the horizontal concatenation of the
gene, variation and text encoder outputs in exactly that order, with row
count 1, and its column count is the sum of the three encoders' fixed
dimensionalities regardless of input content (including empty strings). -/
theorem assembled_vector_shape (gv vv tv : Encoder) (g v t : String) :
    gv.transform (some g) = .ok [gv.enc g] ∧
    hstack3 [gv.enc g] [vv.enc v] [tv.enc t] =
      [gv.enc g ++ vv.enc v ++ tv.enc t] ∧
    (hstack3 [gv.enc g] [vv.enc v] [tv.enc t]).length = 1 ∧
    (gv.enc g ++ vv.enc v ++ tv.enc t).length = gv.dim + vv.dim + tv.dim := by
  refine ⟨rfl, ?_, ?_, ?_⟩
  · simp [hstack3]
  · simp [hstack3]
  · simp [gv.enc_len, vv.enc_len, tv.enc_len, Nat.add_assoc]

/-- C6: on a request with all three fields present, the response is the JSON
object with `prediction` the classifier's label for the assembled vector, and
`treatment` and `url` obtained by looking that same label up in the
recommendation table. -/
theorem predict_success_response (gv vv tv : Encoder) (M : Classifier)
    (req : Request) (g v t : String)
    (hg : jsonGet req "gene" = some g)
    (hv : jsonGet req "variation" = some v)
    (ht : jsonGet req "text" = some t)
    (hdim : ((gv.enc g ++ vv.enc v) ++ tv.enc t).length = M.expectedDim) :
    predict gv vv tv M req =
      .ok { prediction := (M.f ((gv.enc g ++ vv.enc v) ++ tv.enc t)).toInt,
            treatment :=
              treatmentTextOf (M.f ((gv.enc g ++ vv.enc v) ++ tv.enc t)).toInt,
            url :=
              treatmentUrlOf (M.f ((gv.enc g ++ vv.enc v) ++ tv.enc t)).toInt } := by
  have hdim' : (gv.enc g).length + ((vv.enc v).length + (tv.enc t).length) =
      M.expectedDim := by simpa using hdim
  simp [predict, hg, hv, ht, Encoder.transform, hstack3, Classifier.predictMat,
    hdim', treatmentTextOf, treatmentUrlOf]

/-- Witness for C6 on a concrete request and concrete artifacts: label 1 plus
the table's first record. -/
theorem predict_success_response_witness :
    predict encX encX encX clfX reqFull =
      .ok { prediction := 1,
            treatment := "Standard therapy; consider immunotherapy or PARP inhibitors if BRCA-mutated.",
            url := "https://www.ncbi.nlm.nih.gov/pmc/articles/PMC7405942/" } :=
  (predict_success_response encX encX encX clfX reqFull "BRCA1" "V600E"
    "Patient has family history of breast cancer" rfl rfl rfl rfl).trans rfl

/-- C7: two calls of the predict operation with the same loaded model and
encoders and identical raw input triples return identical results. -/
theorem predict_deterministic (gv vv tv : Encoder) (M : Classifier)
    (req1 req2 : Request)
    (hg : jsonGet req1 "gene" = jsonGet req2 "gene")
    (hv : jsonGet req1 "variation" = jsonGet req2 "variation")
    (ht : jsonGet req1 "text" = jsonGet req2 "text") :
    predict gv vv tv M req1 = predict gv vv tv M req2 := by
  unfold predict
  rw [hg, hv, ht]

/-- Witness for C7: two distinct concrete requests with the same raw triple
produce the same result. -/
theorem predict_deterministic_witness :
    predict encX encX encX clfX reqExtra = predict encX encX encX clfX reqFull :=
  predict_deterministic encX encX encX clfX reqExtra reqFull rfl rfl rfl

/-- C8: no stage of the pipeline catches, retries or recovers: a failure in
any encoding stage or in classification makes the whole request abort with
that same failure, surfaced unmodified, with no response produced. -/
theorem predict_propagates_failures (gv vv tv : Encoder) (M : Classifier)
    (req : Request) (e : PipelineError) :
    (gv.transform (jsonGet req "gene") = .error e →
      predict gv vv tv M req = .error e) ∧
    (∀ gm, gv.transform (jsonGet req "gene") = .ok gm →
      vv.transform (jsonGet req "variation") = .error e →
      predict gv vv tv M req = .error e) ∧
    (∀ gm vm, gv.transform (jsonGet req "gene") = .ok gm →
      vv.transform (jsonGet req "variation") = .ok vm →
      tv.transform (jsonGet req "text") = .error e →
      predict gv vv tv M req = .error e) ∧
    (∀ gm vm tm, gv.transform (jsonGet req "gene") = .ok gm →
      vv.transform (jsonGet req "variation") = .ok vm →
      tv.transform (jsonGet req "text") = .ok tm →
      M.predictMat (hstack3 gm vm tm) = .error e →
      predict gv vv tv M req = .error e) := by
  refine ⟨fun h1 => ?_, fun gm h1 h2 => ?_, fun gm vm h1 h2 h3 => ?_,
    fun gm vm tm h1 h2 h3 h4 => ?_⟩ <;>
    simp [predict, h1]
  · simp [h2]
  · simp [h2, h3]
  · simp [h2, h3, h4]

/-- Witness for C8: a classifier fit to a different width makes the whole
request abort with the dimension-mismatch failure, unmodified. -/
theorem predict_propagates_failures_witness :
    predict encX encX encX clfBad reqFull = .error .dimMismatch :=
  (predict_propagates_failures encX encX encX clfBad reqFull
    .dimMismatch).2.2.2 [[0]] [[0]] [[0]] rfl rfl rfl rfl

/-- C9: on success, the `prediction` carried by the response is the plain
integer extracted (Python `int(...)`) from the classifier's raw (numpy
scalar) output for the assembled vector. -/
theorem predict_serializes_plain_int (gv vv tv : Encoder) (M : Classifier)
    (req : Request) (g v t : String)
    (hg : jsonGet req "gene" = some g)
    (hv : jsonGet req "variation" = some v)
    (ht : jsonGet req "text" = some t)
    (hdim : ((gv.enc g ++ vv.enc v) ++ tv.enc t).length = M.expectedDim) :
    ∃ resp : Response, predict gv vv tv M req = .ok resp ∧
      resp.prediction = NpInt64.toInt (M.f ((gv.enc g ++ vv.enc v) ++ tv.enc t)) := by
  refine ⟨{ prediction := (M.f ((gv.enc g ++ vv.enc v) ++ tv.enc t)).toInt,
            treatment :=
              treatmentTextOf (M.f ((gv.enc g ++ vv.enc v) ++ tv.enc t)).toInt,
            url :=
              treatmentUrlOf (M.f ((gv.enc g ++ vv.enc v) ++ tv.enc t)).toInt },
    ?_, rfl⟩
  have hdim' : (gv.enc g).length + ((vv.enc v).length + (tv.enc t).length) =
      M.expectedDim := by simpa using hdim
  simp [predict, hg, hv, ht, Encoder.transform, hstack3, Classifier.predictMat,
    hdim', treatmentTextOf, treatmentUrlOf]

/-- Witness for C9 on a concrete request and concrete artifacts. -/
theorem predict_serializes_plain_int_witness :
    ∃ resp : CareInsight.Response,
      predict encX encX encX clfX reqFull = .ok resp ∧
        resp.prediction = NpInt64.toInt (clfX.f ((encX.enc "BRCA1" ++ encX.enc "V600E") ++
          encX.enc "Patient has family history of breast cancer")) :=
  predict_serializes_plain_int encX encX encX clfX reqFull "BRCA1" "V600E"
    "Patient has family history of breast cancer" rfl rfl rfl rfl

end CareInsight
